import Mathlib

/- Shallow embedding of the 5G network security simulator and attack detector
   from src/5g_network_simulator.py and src/attack_detector.py.

   Modelling conventions:
   * Python ints are Nat (all counters in the code are nonnegative), datetimes
     are Int seconds since the epoch, floats are rationals.
   * The random module and the wall clock (datetime.now, time.time) are
     impure; they are modelled as an explicit stream of natural-number draws
     (Rng) threaded through every routine, with randint and uniform built on
     top of the stream so that range guarantees are intrinsic.
   * Python dicts are association lists in insertion order (upsert and
     alookup below); dict keys are unique by construction, which is proved
     rather than assumed.
   * The IsolationForest and StandardScaler of detect_mitm_attack are
     external ML components; they enter the embedding as opaque function
     parameters (scaler, fit_predict, score_samples), since no claim depends
     on their numeric behaviour, only on the guard in front of them. -/

/-- ThreatType enum of 5g_network_simulator.py. -/
inductive ThreatType
  | ddos | mitm | spoofing | jamming | data_breach | imsi_catching | rogue_base_station
  deriving DecidableEq

/-- The string value carried by each ThreatType member. -/
def ThreatType.value : ThreatType → String
  | .ddos => "DDoS Attack"
  | .mitm => "Man-in-the-Middle"
  | .spoofing => "Spoofing Attack"
  | .jamming => "Jamming Attack"
  | .data_breach => "Data Privacy Breach"
  | .imsi_catching => "IMSI Catching"
  | .rogue_base_station => "Rogue Base Station"

/-- Severity enum of 5g_network_simulator.py. -/
inductive Severity
  | low | medium | high | critical
  deriving DecidableEq

/-- The ordinal value carried by each Severity member. -/
def Severity.value : Severity → Nat
  | .low => 1
  | .medium => 2
  | .high => 3
  | .critical => 4

/-- NetworkNode dataclass of 5g_network_simulator.py. -/
structure NetworkNode where
  node_id : String
  node_type : String
  ip_address : String
  location : ℚ × ℚ
  status : String := "active"
  security_level : Nat := 5
  deriving DecidableEq

/-- SecurityEvent dataclass of 5g_network_simulator.py. -/
structure SecurityEvent where
  event_id : String
  timestamp : ℤ
  threat_type : ThreatType
  severity : Severity
  source_node : String
  target_node : String
  description : String
  mitigation_status : String := "pending"
  deriving DecidableEq

/-- A traffic record as produced by the simulator.  Keys that only some
records carry (signal_strength in arbitrary detector input, attack_type,
anomaly_score) are Options; keys that every record produced by this
repository carries (timestamp, source, destination, packet_count,
data_volume, latency) are plain fields. -/
structure TrafficRecord where
  timestamp : ℤ
  source : String
  destination : String
  packet_count : Nat
  data_volume : Nat
  latency : ℚ
  signal_strength : Option ℚ
  is_attack : Bool
  attack_type : Option String
  anomaly_score : Option ℚ
  deriving DecidableEq

/-- The stream of draws standing in for Python's random module and the wall
clock: each impure call consumes the draw at the current position. -/
structure Rng where
  stream : Nat → Nat
  pos : Nat

/-- Consume one draw. -/
def Rng.next (g : Rng) : Nat × Rng :=
  (g.stream g.pos, ⟨g.stream, g.pos + 1⟩)

/-- random.randint a b: one draw folded into the inclusive range [a, b]. -/
def randint (a b : Nat) (g : Rng) : Nat × Rng :=
  let (n, g1) := g.next
  (a + n % (b + 1 - a), g1)

/-- random.uniform a b: one draw folded into a rational of [a, b]
(granularity 1/1000, which is immaterial to every stated property). -/
def runiform (a b : ℚ) (g : Rng) : ℚ × Rng :=
  let (n, g1) := g.next
  (a + (b - a) * (((n % 1001 : Nat) : ℚ) / 1000), g1)

/-- datetime.now(): one draw read as a timestamp. -/
def rnow (g : Rng) : ℤ × Rng :=
  let (n, g1) := g.next
  ((n : ℤ), g1)

/-- random.choice over a list of node identifiers (uniform index draw).
Python raises on an empty list; the code only reaches this call with the
nonempty registry key list, so the empty case returns a junk value that is
provably never produced (choice_mem). -/
def choice (l : List String) (s : Nat) : String :=
  match l with
  | [] => ""
  | a :: rest => (a :: rest).get ⟨s % (a :: rest).length, Nat.mod_lt _ (Nat.succ_pos _)⟩

/-- Insert-or-update in an association list, preserving Python dict
insertion order: an existing key is updated in place with f, a new key is
appended at the end bound to i. -/
def upsert {α β : Type} [DecidableEq α] (f : β → β) (i : β) (k : α) :
    List (α × β) → List (α × β)
  | [] => [(k, i)]
  | (k1, v) :: rest => if k1 = k then (k1, f v) :: rest else (k1, v) :: upsert f i k rest

/-- Association-list lookup (Python dict access). -/
def alookup {α β : Type} [DecidableEq α] (k : α) : List (α × β) → Option β
  | [] => none
  | (k1, v) :: rest => if k1 = k then some v else alookup k rest

/-- Python dict built by repeatedly appending each element to the bucket of
its key, in insertion order (the shape of _group_by_time_windows and of the
pandas minute groupby). -/
def groupFold {τ α : Type} [DecidableEq α] (key : τ → α) (l : List τ) : List (α × List τ) :=
  l.foldl (fun acc x => upsert (fun b => b ++ [x]) [x] (key x) acc) []

/-- Truncation of a timestamp to its minute: _group_by_time_windows with
window_size=60 sets second and microsecond to 0 and maps the minute field
through (m // (60 // 60)) * (60 // 60) = m, i.e. it floors to the minute. -/
def windowStart (t : ℤ) : ℤ := t - t.emod 60

/-- A DDoS finding of detect_ddos_attack (attack_type "DDoS"). -/
structure DdosAttack where
  attack_type : String
  timestamp : ℤ
  severity : String
  total_packets : Nat
  unique_sources : Nat
  avg_packet_size : ℚ
  confidence : ℚ
  deriving DecidableEq

/-- The per-window body of the detect_ddos_attack loop: skip an empty
window, flag one whose packet total exceeds the high_packet_rate pattern
(1000) with confidence min(total/1000, 1). -/
def ddosCheck (p : ℤ × List TrafficRecord) : Option DdosAttack :=
  if p.2.isEmpty then none
  else
    let total := (p.2.map (fun r => r.packet_count)).sum
    if 1000 < total then
      some { attack_type := "DDoS"
             timestamp := p.1
             severity := "HIGH"
             total_packets := total
             unique_sources := (p.2.map (fun r => r.source)).dedup.length
             avg_packet_size := ((p.2.map (fun r => (r.data_volume : ℚ))).sum) / (p.2.length : ℚ)
             confidence := min ((total : ℚ) / 1000) 1 }
    else none

/-- detect_ddos_attack of attack_detector.py: group records into 1-minute
windows and run ddosCheck on each window. -/
def detect_ddos_attack (l : List TrafficRecord) : List DdosAttack :=
  (groupFold (fun r => windowStart r.timestamp) l).filterMap ddosCheck

/-- A jamming finding of detect_jamming_attack. -/
structure JammingAttack where
  attack_type : String
  timestamp : ℤ
  severity : String
  avg_signal_strength : ℚ
  min_signal_strength : ℚ
  signal_variance : Option ℚ
  confidence : ℚ
  deriving DecidableEq

/-- Minimum of a nonempty list of rationals (pandas Series.min). -/
def qmin : List ℚ → ℚ
  | [] => 0
  | v :: vs => vs.foldl min v

/-- detect_jamming_attack of attack_detector.py: records carrying a
signal_strength key are grouped by minute; a window is flagged when its mean
signal is below 0.3 or its minimum below 0.2 or its sample variance above
0.1.  pandas Series.var uses ddof=1, so a singleton window has variance NaN
and the variance comparison is false; that is modelled with Option.
The window emission order of the pandas groupby (sorted keys) is modelled
as first-occurrence order, which changes no stated property. -/
def detect_jamming_attack (l : List TrafficRecord) : List JammingAttack :=
  let signal_data := l.filterMap fun r => r.signal_strength.map fun v => (r.timestamp, v)
  if signal_data.isEmpty then []
  else
    (groupFold (fun p => windowStart p.1) signal_data).filterMap fun p =>
      let vals := p.2.map Prod.snd
      let avg := vals.sum / (vals.length : ℚ)
      let minv := qmin vals
      let varOpt : Option ℚ :=
        if 2 ≤ vals.length then
          some (((vals.map fun x => (x - avg) * (x - avg)).sum) / ((vals.length - 1 : Nat) : ℚ))
        else none
      if decide (avg < 3/10) || decide (minv < 1/5)
          || (varOpt.map fun v => decide (1/10 < v)).getD false then
        some { attack_type := "Jamming"
               timestamp := p.1
               severity := "MEDIUM"
               avg_signal_strength := avg
               min_signal_strength := minv
               signal_variance := varOpt
               confidence := 1 - avg }
      else none

/-- A MITM finding of detect_mitm_attack. -/
structure MitmAttack where
  attack_type : String
  timestamp : ℤ
  severity : String
  anomaly_score : ℚ
  packet_count : Nat
  latency : ℚ
  confidence : ℚ
  deriving DecidableEq

/-- detect_mitm_attack of attack_detector.py: build one feature vector per
record (packet_count, latency, data_volume, signal_strength defaulting to
0.5, anomaly_score defaulting to 0), require at least 10 of them, scale,
and keep the records the forest labels -1, with confidence the absolute
forest score.  scaler, fit_predict and score_samples stand for the
StandardScaler and IsolationForest. -/
def detect_mitm_attack (scaler : List (List ℚ) → List (List ℚ))
    (fit_predict : List (List ℚ) → List ℤ) (score_samples : List ℚ → ℚ)
    (l : List TrafficRecord) : List MitmAttack :=
  let features := l.map fun r =>
    [(r.packet_count : ℚ), r.latency, (r.data_volume : ℚ),
     r.signal_strength.getD (1/2), r.anomaly_score.getD 0]
  if features.length < 10 then []
  else
    let X := scaler features
    let labels := fit_predict X
    (labels.zip (X.zip l)).filterMap fun p =>
      if p.1 = -1 then
        some { attack_type := "MITM"
               timestamp := p.2.2.timestamp
               severity := "CRITICAL"
               anomaly_score := |score_samples p.2.1|
               packet_count := p.2.2.packet_count
               latency := p.2.2.latency
               confidence := |score_samples p.2.1| }
      else none

/-- The running aggregate detect_spoofing_attack keeps per source label. -/
structure SourceStats where
  packet_count : Nat
  data_volume : Nat
  first_seen : ℤ
  last_seen : ℤ
  deriving DecidableEq

/-- The per-source aggregation pass of detect_spoofing_attack: a fresh
source starts from its own record, an existing one accumulates packet and
byte counts and refreshes last_seen. -/
def sourceAnalysis (l : List TrafficRecord) : List (String × SourceStats) :=
  l.foldl
    (fun acc r =>
      upsert
        (fun st => { packet_count := st.packet_count + r.packet_count
                     data_volume := st.data_volume + r.data_volume
                     first_seen := st.first_seen
                     last_seen := r.timestamp })
        { packet_count := r.packet_count
          data_volume := r.data_volume
          first_seen := r.timestamp
          last_seen := r.timestamp }
        r.source acc)
    []

/-- A spoofing finding of detect_spoofing_attack. -/
structure SpoofingAttack where
  attack_type : String
  timestamp : ℤ
  severity : String
  source : String
  packet_rate : ℚ
  total_packets : Nat
  confidence : ℚ
  deriving DecidableEq

/-- The time span of a source's aggregate (last_seen - first_seen seconds). -/
def spoofSpan (st : SourceStats) : ℤ := st.last_seen - st.first_seen

/-- The packet rate detect_spoofing_attack computes for a source. -/
def spoofRate (st : SourceStats) : ℚ := (st.packet_count : ℚ) / ((spoofSpan st : ℤ) : ℚ)

/-- The per-source body of the detect_spoofing_attack loop: when the time
span between first and last sighting is positive and the packet rate
exceeds 50 packets/second, emit one finding with confidence
min(rate/100, 1). -/
def spoofCheck (p : String × SourceStats) : Option SpoofingAttack :=
  if 0 < spoofSpan p.2 then
    if 50 < spoofRate p.2 then
      some { attack_type := "Spoofing"
             timestamp := p.2.last_seen
             severity := "HIGH"
             source := p.1
             packet_rate := spoofRate p.2
             total_packets := p.2.packet_count
             confidence := min (spoofRate p.2 / 100) 1 }
    else none
  else none

/-- detect_spoofing_attack of attack_detector.py: aggregate per source and
run spoofCheck on each source's aggregate. -/
def detect_spoofing_attack (l : List TrafficRecord) : List SpoofingAttack :=
  (sourceAnalysis l).filterMap spoofCheck

/-- The record comprehensive_attack_detection returns (the wall-clock
detection_timestamp of the summary is omitted: no claim concerns it). -/
structure DetectionResults where
  ddos_attacks : List DdosAttack
  jamming_attacks : List JammingAttack
  mitm_attacks : List MitmAttack
  spoofing_attacks : List SpoofingAttack
  total_attacks : Nat
  traffic_records_analyzed : Nat
  deriving DecidableEq

/-- comprehensive_attack_detection of attack_detector.py: run all four
detectors and summarize. -/
def comprehensive_attack_detection (scaler : List (List ℚ) → List (List ℚ))
    (fit_predict : List (List ℚ) → List ℤ) (score_samples : List ℚ → ℚ)
    (l : List TrafficRecord) : DetectionResults :=
  let d := detect_ddos_attack l
  let j := detect_jamming_attack l
  let m := detect_mitm_attack scaler fit_predict score_samples l
  let sp := detect_spoofing_attack l
  { ddos_attacks := d
    jamming_attacks := j
    mitm_attacks := m
    spoofing_attacks := sp
    total_attacks := d.length + j.length + m.length + sp.length
    traffic_records_analyzed := l.length }

/-- The mutable state of FiveGNetworkSimulator: the node registry (a dict
keyed by node_id), the append-only security event log, and the append-only
traffic record list. -/
structure SimState where
  nodes : List (String × NetworkNode)
  security_events : List SecurityEvent
  traffic_data : List TrafficRecord
  deriving DecidableEq

/-- The hard-coded registry built by initialize_network: five core nodes,
four gNodeBs, four items of user equipment, with their literal coordinates. -/
def init_network_nodes : List (String × NetworkNode) :=
  [("AMF-001", { node_id := "AMF-001", node_type := "AMF", ip_address := "10.0.1.1", location := (0, 0) }),
   ("SMF-001", { node_id := "SMF-001", node_type := "SMF", ip_address := "10.0.1.2", location := (0, 1) }),
   ("UPF-001", { node_id := "UPF-001", node_type := "UPF", ip_address := "10.0.1.3", location := (0, 2) }),
   ("AUSF-001", { node_id := "AUSF-001", node_type := "AUSF", ip_address := "10.0.1.4", location := (0, 3) }),
   ("UDM-001", { node_id := "UDM-001", node_type := "UDM", ip_address := "10.0.1.5", location := (0, 4) }),
   ("gNB-001", { node_id := "gNB-001", node_type := "gNodeB", ip_address := "10.0.2.1", location := (1, 0) }),
   ("gNB-002", { node_id := "gNB-002", node_type := "gNodeB", ip_address := "10.0.2.2", location := (1, 1) }),
   ("gNB-003", { node_id := "gNB-003", node_type := "gNodeB", ip_address := "10.0.2.3", location := (1, 2) }),
   ("gNB-004", { node_id := "gNB-004", node_type := "gNodeB", ip_address := "10.0.2.4", location := (1, 3) }),
   ("UE-001", { node_id := "UE-001", node_type := "User Equipment", ip_address := "192.168.1.1", location := (2, 0) }),
   ("UE-002", { node_id := "UE-002", node_type := "User Equipment", ip_address := "192.168.1.2", location := (2, 1) }),
   ("UE-003", { node_id := "UE-003", node_type := "User Equipment", ip_address := "192.168.1.3", location := (2, 2) }),
   ("UE-004", { node_id := "UE-004", node_type := "User Equipment", ip_address := "192.168.1.4", location := (2, 3) })]

/-- A simulator whose network has just been initialized and which has seen
no traffic and no events yet. -/
def sim0 : SimState :=
  { nodes := init_network_nodes, security_events := [], traffic_data := [] }

/-- A concrete draw stream (all zeros) for concrete executions. -/
def rng0 : Rng := ⟨fun _ => 0, 0⟩

/-- One benign record of generate_normal_traffic, with every random field
drawn in the literal order of the dict in the source. -/
def mkNormalRecord (keys : List String) (src : String) (g : Rng) : TrafficRecord × Rng :=
  let g1 := (rnow g).2
  let g2 := (g1.next).2
  let g3 := (randint 10 100 g2).2
  let g4 := (randint 100 1000 g3).2
  let g5 := (runiform 1 50 g4).2
  let g6 := (runiform (7/10) 1 g5).2
  ({ timestamp := (rnow g).1
     source := src
     destination := choice keys (g1.next).1
     packet_count := (randint 10 100 g2).1
     data_volume := (randint 100 1000 g3).1
     latency := (runiform 1 50 g4).1
     signal_strength := some (runiform (7/10) 1 g5).1
     is_attack := false
     attack_type := none
     anomaly_score := none }, g6)

/-- The inner loop of generate_normal_traffic over the registry: every
User Equipment node emits one benign record this second. -/
def gen_second (keys : List String) : List (String × NetworkNode) → Rng → List TrafficRecord × Rng
  | [], g => ([], g)
  | p :: rest, g =>
    if p.2.node_type = "User Equipment" then
      let r := (mkNormalRecord keys p.1 g).1
      let rs := gen_second keys rest (mkNormalRecord keys p.1 g).2
      (r :: rs.1, rs.2)
    else gen_second keys rest g

/-- The outer loop of generate_normal_traffic over the simulated seconds. -/
def gen_traffic (keys : List String) (nodes : List (String × NetworkNode)) :
    Nat → Rng → List TrafficRecord × Rng
  | 0, g => ([], g)
  | d + 1, g =>
    let rs := gen_second keys nodes g
    let rest := gen_traffic keys nodes d rs.2
    (rs.1 ++ rest.1, rest.2)

/-- generate_normal_traffic of 5g_network_simulator.py: append duration
seconds of benign traffic from every User Equipment node. -/
def generate_normal_traffic (duration : Nat) (s : SimState) (g : Rng) : SimState × Rng :=
  let res := gen_traffic (s.nodes.map Prod.fst) s.nodes duration g
  ({ s with traffic_data := s.traffic_data ++ res.1 }, res.2)

/-- The records generate_normal_traffic appends to a state. -/
def normal_new_records (duration : Nat) (s : SimState) (g : Rng) : List TrafficRecord :=
  ((generate_normal_traffic duration s g).1).traffic_data.drop s.traffic_data.length

/-- The attack loop of simulate_ddos_attack: one flood record per second,
returning the records, the accumulated attack_packets counter, and the
stream.  Draws follow the literal order of the source. -/
def ddosLoop (target : String) : Nat → Rng → List TrafficRecord × Nat × Rng
  | 0, g => ([], 0, g)
  | d + 1, g =>
    let pc := (randint 1000 5000 g).1
    let g1 := (randint 1000 5000 g).2
    let g2 := (rnow g1).2
    let g3 := (randint 1000 9999 g2).2
    let g4 := (randint 50 200 g3).2
    let g5 := (runiform 100 500 g4).2
    let g6 := (runiform (3/10) (6/10) g5).2
    let r : TrafficRecord :=
      { timestamp := (rnow g1).1
        source := "ATTACKER-" ++ toString (randint 1000 9999 g2).1
        destination := target
        packet_count := pc
        data_volume := pc * (randint 50 200 g3).1
        latency := (runiform 100 500 g4).1
        signal_strength := some (runiform (3/10) (6/10) g5).1
        is_attack := true
        attack_type := some "DDoS"
        anomaly_score := none }
    let rest := ddosLoop target d g6
    (r :: rest.1, pc + rest.2.1, rest.2.2)

/-- simulate_ddos_attack of 5g_network_simulator.py: flood records for
duration seconds, then one HIGH severity event naming the packet total. -/
def simulate_ddos_attack (target : String) (duration : Nat) (s : SimState) (g : Rng) :
    SimState × Rng :=
  let g1 := (rnow g).2
  let res := ddosLoop target duration g1
  let e : SecurityEvent :=
    { event_id := "DDOS-" ++ toString (res.2.2.next).1
      timestamp := (rnow g).1
      threat_type := ThreatType.ddos
      severity := Severity.high
      source_node := "Multiple Attackers"
      target_node := target
      description := "DDoS attack with " ++ toString res.2.1 ++ " packets over "
        ++ toString duration ++ " seconds" }
  ({ s with traffic_data := s.traffic_data ++ res.1
            security_events := s.security_events ++ [e] }, (res.2.2.next).2)

/-- The records simulate_ddos_attack appends to a state. -/
def ddos_new_records (target : String) (duration : Nat) (s : SimState) (g : Rng) :
    List TrafficRecord :=
  ((simulate_ddos_attack target duration s g).1).traffic_data.drop s.traffic_data.length

/-- The membership test of simulate_jamming_attack, with the square root
eliminated: for dx*dx + dy*dy = d2 and a radius r, sqrt d2 <= r holds
exactly when 0 <= r and d2 <= r*r, since d2 is nonnegative. -/
def withinRadius (loc : ℚ × ℚ) (area : ℚ × ℚ) (radius : ℚ) : Bool :=
  decide ((loc.1 - area.1) * (loc.1 - area.1) + (loc.2 - area.2) * (loc.2 - area.2)
      ≤ radius * radius ∧ 0 ≤ radius)

/-- simulate_jamming_attack of 5g_network_simulator.py: degrade the status
of every node within radius of the target area and append one MEDIUM
severity event naming the affected-node count. -/
def simulate_jamming_attack (area : ℚ × ℚ) (radius : ℚ) (s : SimState) (g : Rng) :
    SimState × Rng :=
  let affected := s.nodes.countP fun p => withinRadius p.2.location area radius
  let nodes1 := s.nodes.map fun p =>
    if withinRadius p.2.location area radius then (p.1, { p.2 with status := "degraded" })
    else p
  let g1 := (g.next).2
  let e : SecurityEvent :=
    { event_id := "JAM-" ++ toString (g.next).1
      timestamp := (rnow g1).1
      threat_type := ThreatType.jamming
      severity := Severity.medium
      source_node := "Unknown Jammer"
      target_node := "Area (" ++ toString area.1 ++ ", " ++ toString area.2 ++ ")"
      description := "Jamming attack affecting " ++ toString affected ++ " nodes" }
  ({ s with nodes := nodes1, security_events := s.security_events ++ [e] }, (rnow g1).2)

/-- The projection of a SecurityEvent that generate_security_report places
in recent_events (the isoformat of the timestamp is kept as the integer). -/
structure RecentEvent where
  event_id : String
  timestamp : ℤ
  threat_type : String
  severity : Nat
  description : String
  deriving DecidableEq

/-- One recent_events entry. -/
def toRecent (e : SecurityEvent) : RecentEvent :=
  { event_id := e.event_id
    timestamp := e.timestamp
    threat_type := e.threat_type.value
    severity := e.severity.value
    description := e.description }

/-- The report of generate_security_report. -/
structure SecurityReport where
  total_security_events : Nat
  total_traffic_records : Nat
  attack_traffic_percentage : ℚ
  network_nodes : Nat
  threat_distribution : List (String × Nat)
  severity_distribution : List (Nat × Nat)
  recent_events : List RecentEvent
  deriving DecidableEq

/-- generate_security_report of 5g_network_simulator.py: counts, the attack
traffic percentage guarded against an empty record list, the defaultdict
distributions, and the last ten events. -/
def generate_security_report (s : SimState) : SecurityReport :=
  let total_traffic := s.traffic_data.length
  let attack_traffic := (s.traffic_data.filter fun t => t.is_attack).length
  { total_security_events := s.security_events.length
    total_traffic_records := total_traffic
    attack_traffic_percentage :=
      if 0 < total_traffic then (attack_traffic : ℚ) / (total_traffic : ℚ) * 100 else 0
    network_nodes := s.nodes.length
    threat_distribution :=
      s.security_events.foldl (fun acc e => upsert (fun n => n + 1) 1 e.threat_type.value acc) []
    severity_distribution :=
      s.security_events.foldl (fun acc e => upsert (fun n => n + 1) 1 e.severity.value acc) []
    recent_events :=
      (s.security_events.drop (s.security_events.length - 10)).map toRecent }

/-- alookup after upsert at the same key: the old binding is mapped through
f, a missing one becomes i. -/
theorem alookup_upsert_self {α β : Type} [DecidableEq α] (f : β → β) (i : β) (k : α)
    (l : List (α × β)) :
    alookup k (upsert f i k l) = some ((alookup k l).elim i f) := by
  induction l with
  | nil => simp [upsert, alookup]
  | cons p rest ih =>
    obtain ⟨k1, v⟩ := p
    by_cases h : k1 = k
    · subst h; simp [upsert, alookup]
    · simp [upsert, alookup, h, ih]

/-- alookup after upsert at a different key is unchanged. -/
theorem alookup_upsert_ne {α β : Type} [DecidableEq α] (f : β → β) (i : β) {k k' : α}
    (h : k' ≠ k) (l : List (α × β)) :
    alookup k' (upsert f i k l) = alookup k' l := by
  induction l with
  | nil => simp [upsert, alookup, Ne.symm h]
  | cons p rest ih =>
    obtain ⟨k1, v⟩ := p
    by_cases h1 : k1 = k
    · subst h1
      have h2 : k1 ≠ k' := fun hh => h (hh ▸ rfl)
      simp [upsert, alookup, h2]
    · simp [upsert, alookup, h1, ih]

/-- The key list after upsert: unchanged for a known key, the new key is
appended for an unknown one. -/
theorem keys_upsert {α β : Type} [DecidableEq α] (f : β → β) (i : β) (k : α)
    (l : List (α × β)) :
    (upsert f i k l).map Prod.fst =
      if k ∈ l.map Prod.fst then l.map Prod.fst else l.map Prod.fst ++ [k] := by
  induction l with
  | nil => simp [upsert]
  | cons p rest ih =>
    obtain ⟨k1, v⟩ := p
    by_cases h : k1 = k
    · subst h; simp [upsert]
    · by_cases h2 : k ∈ rest.map Prod.fst
      · simp [upsert, h, ih, h2, Ne.symm h]
      · simp [upsert, h, ih, h2, Ne.symm h]

/-- upsert keeps dict keys unique. -/
theorem nodup_keys_upsert {α β : Type} [DecidableEq α] (f : β → β) (i : β) (k : α)
    {l : List (α × β)} (h : (l.map Prod.fst).Nodup) :
    ((upsert f i k l).map Prod.fst).Nodup := by
  rw [keys_upsert]
  by_cases hk : k ∈ l.map Prod.fst
  · simpa [hk]
  · simp only [hk, if_false]
    rw [List.nodup_append]
    exact ⟨h, List.nodup_singleton k, by simpa using hk⟩

/-- A key absent from the key list has no binding. -/
theorem alookup_eq_none_of_not_mem {α β : Type} [DecidableEq α] {k : α} {l : List (α × β)}
    (h : k ∉ l.map Prod.fst) : alookup k l = none := by
  induction l with
  | nil => rfl
  | cons p rest ih =>
    obtain ⟨k1, v⟩ := p
    simp only [List.map_cons, List.mem_cons, not_or] at h
    have h1 : k1 ≠ k := fun hh => h.1 hh.symm
    simp [alookup, h1, ih h.2]

/-- With unique keys, membership of a pair determines the lookup. -/
theorem alookup_of_mem_nodup {α β : Type} [DecidableEq α] {k : α} {v : β} {l : List (α × β)}
    (hnd : (l.map Prod.fst).Nodup) (hm : (k, v) ∈ l) : alookup k l = some v := by
  induction l with
  | nil => cases hm
  | cons p rest ih =>
    obtain ⟨k1, v1⟩ := p
    rw [List.map_cons, List.nodup_cons] at hnd
    rcases List.mem_cons.mp hm with heq | hmem
    · cases heq; simp [alookup]
    · have h1 : k1 ≠ k := by
        intro hh
        have hk : k ∈ rest.map Prod.fst := List.mem_map.mpr ⟨(k, v), hmem, rfl⟩
        rw [hh] at hnd
        exact hnd.1 hk
      simp [alookup, h1, ih hnd.2 hmem]

/-- Counting, among the findings a filterMap over an association list with
unique keys emits, those whose key field equals s: there is one exactly
when s is bound and the emission test fires on its binding. -/
theorem countP_filterMap_key {α β γ : Type} [DecidableEq α]
    (g : α × β → Option γ) (key : γ → α)
    (hg : ∀ p c, g p = some c → key c = p.1) :
    ∀ l : List (α × β), (l.map Prod.fst).Nodup → ∀ s : α,
      (l.filterMap g).countP (fun c => decide (key c = s)) =
        match alookup s l with
        | none => 0
        | some v => if (g (s, v)).isSome then 1 else 0 := by
  intro l
  induction l with
  | nil => intro _ s; simp [alookup]
  | cons p rest ih =>
    intro hnd s
    obtain ⟨k, v⟩ := p
    rw [List.map_cons, List.nodup_cons] at hnd
    have hzero : s ∉ rest.map Prod.fst →
        (rest.filterMap g).countP (fun c => decide (key c = s)) = 0 := by
      intro hs
      rw [List.countP_eq_zero]
      intro c hc
      obtain ⟨q, hq, hgq⟩ := List.mem_filterMap.mp hc
      simp only [decide_eq_true_eq]
      intro hcs
      exact hs (by rw [← hcs, hg q c hgq]; exact List.mem_map_of_mem Prod.fst hq)
    rw [List.filterMap_cons]
    cases hgk : g (k, v) with
    | none =>
      by_cases hks : k = s
      · subst hks
        rw [alookup_of_mem_nodup (by rw [List.map_cons]; exact List.nodup_cons.mpr hnd)
            (List.mem_cons_self _ _)]
        simp [hzero hnd.1, hgk]
      · have : alookup s ((k, v) :: rest) = alookup s rest := by simp [alookup, hks]
        rw [this]
        exact ih hnd.2 s
    | some c =>
      have hck : key c = k := hg (k, v) c hgk
      by_cases hks : k = s
      · subst hks
        rw [List.countP_cons, alookup_of_mem_nodup
            (by rw [List.map_cons]; exact List.nodup_cons.mpr hnd) (List.mem_cons_self _ _)]
        simp [hzero hnd.1, hck, hgk]
      · have h1 : alookup s ((k, v) :: rest) = alookup s rest := by simp [alookup, hks]
        rw [List.countP_cons, h1]
        have : (decide (key c = s)) = false := by simp [hck, hks]
        rw [this]
        simp [ih hnd.2 s]

/-- Processing one more element of a grouping fold. -/
theorem groupFold_concat {τ α : Type} [DecidableEq α] (key : τ → α) (l : List τ) (x : τ) :
    groupFold key (l ++ [x]) = upsert (fun b => b ++ [x]) [x] (key x) (groupFold key l) := by
  simp [groupFold, List.foldl_append]

/-- The bucket a grouping fold binds to k is exactly the sublist of
elements with key k, in input order (and a key with no elements is
unbound). -/
theorem alookup_groupFold {τ α : Type} [DecidableEq α] [DecidableEq τ] (key : τ → α) (l : List τ) (k : α) :
    alookup k (groupFold key l) =
      if (l.filter fun x => decide (key x = k)) = [] then none
      else some (l.filter fun x => decide (key x = k)) := by
  induction l using List.reverseRecOn with
  | nil => simp [groupFold, alookup]
  | append_singleton l x ih =>
    rw [groupFold_concat, List.filter_append]
    by_cases hk : key x = k
    · rw [hk, alookup_upsert_self, ih]
      by_cases hf : (l.filter fun x => decide (key x = k)) = []
      · simp [hf, hk]
      · simp [hf, hk]
    · rw [alookup_upsert_ne _ _ (fun hh => hk hh.symm)]
      simp [ih, hk]

/-- Grouping folds have unique keys. -/
theorem nodup_keys_groupFold {τ α : Type} [DecidableEq α] (key : τ → α) (l : List τ) :
    ((groupFold key l).map Prod.fst).Nodup := by
  induction l using List.reverseRecOn with
  | nil => simp [groupFold]
  | append_singleton l x ih =>
    rw [groupFold_concat]
    exact nodup_keys_upsert _ _ _ ih

/-- The records of l whose source label is s, in input order. -/
def sourceRecords (l : List TrafficRecord) (s : String) : List TrafficRecord :=
  l.filter fun r => decide (r.source = s)

/-- Total packets attributed to source s across the whole input. -/
def sourcePackets (l : List TrafficRecord) (s : String) : Nat :=
  ((sourceRecords l s).map fun r => r.packet_count).sum

/-- Total byte volume attributed to source s across the whole input. -/
def sourceVolume (l : List TrafficRecord) (s : String) : Nat :=
  ((sourceRecords l s).map fun r => r.data_volume).sum

/-- Timestamp of the first sighting of source s (0 when never seen). -/
def firstSeenTs (l : List TrafficRecord) (s : String) : ℤ :=
  ((sourceRecords l s).head?.map fun r => r.timestamp).getD 0

/-- Timestamp of the last sighting of source s (0 when never seen). -/
def lastSeenTs (l : List TrafficRecord) (s : String) : ℤ :=
  ((sourceRecords l s).getLast?.map fun r => r.timestamp).getD 0

/-- Seconds between first and last sighting of source s. -/
def sourceSpan (l : List TrafficRecord) (s : String) : ℤ := lastSeenTs l s - firstSeenTs l s

/-- The packet rate the spoofing detector attributes to source s. -/
def sourceRate (l : List TrafficRecord) (s : String) : ℚ :=
  (sourcePackets l s : ℚ) / ((sourceSpan l s : ℤ) : ℚ)

/-- Whether the spoofing detector flags source s: seen at least once, over
a positive time span, at a rate exceeding 50 packets/second. -/
def spoofFlagged (l : List TrafficRecord) (s : String) : Bool :=
  !(sourceRecords l s).isEmpty && decide (0 < sourceSpan l s) && decide (50 < sourceRate l s)

/-- Processing one more record of the spoofing aggregation pass. -/
theorem sourceAnalysis_concat (l : List TrafficRecord) (r : TrafficRecord) :
    sourceAnalysis (l ++ [r]) =
      upsert
        (fun st => { packet_count := st.packet_count + r.packet_count
                     data_volume := st.data_volume + r.data_volume
                     first_seen := st.first_seen
                     last_seen := r.timestamp })
        { packet_count := r.packet_count
          data_volume := r.data_volume
          first_seen := r.timestamp
          last_seen := r.timestamp }
        r.source (sourceAnalysis l) := by
  simp [sourceAnalysis, List.foldl_append]

/-- The aggregate the spoofing pass binds to a source is the sum of that
source's packet and byte counts and the timestamps of its first and last
records, in input order. -/
theorem alookup_sourceAnalysis (l : List TrafficRecord) (s : String) :
    alookup s (sourceAnalysis l) =
      if sourceRecords l s = [] then none
      else some { packet_count := sourcePackets l s
                  data_volume := sourceVolume l s
                  first_seen := firstSeenTs l s
                  last_seen := lastSeenTs l s } := by
  induction l using List.reverseRecOn with
  | nil => simp [sourceAnalysis, alookup, sourceRecords]
  | append_singleton l r ih =>
    have hrec : ∀ s', sourceRecords (l ++ [r]) s' =
        sourceRecords l s' ++ if r.source = s' then [r] else [] := by
      intro s'
      by_cases hr : r.source = s' <;> simp [sourceRecords, List.filter_append, hr]
    rw [sourceAnalysis_concat]
    by_cases hr : r.source = s
    · rw [hr, alookup_upsert_self, ih]
      by_cases hf : sourceRecords l s = []
      · simp only [hf, if_true]
        have h2 : sourceRecords (l ++ [r]) s = [r] := by
          rw [hrec s, hf, if_pos hr]
          rfl
        simp [h2, sourcePackets, sourceVolume, firstSeenTs, lastSeenTs]
      · simp only [hf, if_false]
        have h2 : sourceRecords (l ++ [r]) s = sourceRecords l s ++ [r] := by
          rw [hrec s, if_pos hr]
        have h3 : sourceRecords (l ++ [r]) s ≠ [] := by simp [h2]
        rw [if_neg h3]
        obtain ⟨a, t, ha⟩ : ∃ a t, sourceRecords l s = a :: t := by
          cases hcase : sourceRecords l s with
          | nil => exact absurd hcase hf
          | cons a t => exact ⟨a, t, rfl⟩
        simp only [Option.elim_some]
        have e1 : sourcePackets (l ++ [r]) s = sourcePackets l s + r.packet_count := by
          simp [sourcePackets, h2]
        have e2 : sourceVolume (l ++ [r]) s = sourceVolume l s + r.data_volume := by
          simp [sourceVolume, h2]
        have e3 : firstSeenTs (l ++ [r]) s = firstSeenTs l s := by
          simp [firstSeenTs, h2, ha]
        have e4 : lastSeenTs (l ++ [r]) s = r.timestamp := by
          simp [lastSeenTs, h2, List.getLast?_concat]
        rw [e1, e2, e3, e4]
    · rw [alookup_upsert_ne _ _ (fun hh => hr hh.symm), ih]
      have h2 : sourceRecords (l ++ [r]) s = sourceRecords l s := by
        rw [hrec s, if_neg hr, List.append_nil]
      have e1 : sourcePackets (l ++ [r]) s = sourcePackets l s := by
        simp [sourcePackets, h2]
      have e2 : sourceVolume (l ++ [r]) s = sourceVolume l s := by
        simp [sourceVolume, h2]
      have e3 : firstSeenTs (l ++ [r]) s = firstSeenTs l s := by
        simp [firstSeenTs, h2]
      have e4 : lastSeenTs (l ++ [r]) s = lastSeenTs l s := by
        simp [lastSeenTs, h2]
      rw [h2, e1, e2, e3, e4]

/-- The spoofing aggregation has unique source keys. -/
theorem nodup_keys_sourceAnalysis (l : List TrafficRecord) :
    ((sourceAnalysis l).map Prod.fst).Nodup := by
  induction l using List.reverseRecOn with
  | nil => simp [sourceAnalysis]
  | append_singleton l r ih =>
    rw [sourceAnalysis_concat]
    exact nodup_keys_upsert _ _ _ ih

/-- randint stays inside its inclusive range. -/
theorem randint_mem {a b : Nat} (h : a ≤ b) (g : Rng) :
    a ≤ (randint a b g).1 ∧ (randint a b g).1 ≤ b := by
  unfold randint Rng.next
  refine ⟨Nat.le_add_right a _, ?_⟩
  have : g.stream g.pos % (b + 1 - a) < b + 1 - a := Nat.mod_lt _ (by omega)
  simp only
  omega

/-- runiform stays inside its inclusive range. -/
theorem runiform_mem {a b : ℚ} (h : a ≤ b) (g : Rng) :
    a ≤ (runiform a b g).1 ∧ (runiform a b g).1 ≤ b := by
  unfold runiform Rng.next
  have h1 : ((g.stream g.pos % 1001 : Nat) : ℚ) ≤ 1000 := by
    have := Nat.mod_lt (g.stream g.pos) (show 0 < 1001 by norm_num)
    exact_mod_cast Nat.lt_succ_iff.mp this
  have h0 : (0 : ℚ) ≤ ((g.stream g.pos % 1001 : Nat) : ℚ) := Nat.cast_nonneg _
  have t0 : (0 : ℚ) ≤ ((g.stream g.pos % 1001 : Nat) : ℚ) / 1000 :=
    div_nonneg h0 (by norm_num)
  have t1 : ((g.stream g.pos % 1001 : Nat) : ℚ) / 1000 ≤ 1 :=
    (div_le_one (by norm_num)).mpr h1
  have m0 : (0 : ℚ) ≤ (b - a) * (((g.stream g.pos % 1001 : Nat) : ℚ) / 1000) :=
    mul_nonneg (by linarith) t0
  have m1 : (b - a) * (((g.stream g.pos % 1001 : Nat) : ℚ) / 1000) ≤ b - a :=
    mul_le_of_le_one_right (by linarith) t1
  constructor <;> simp only <;> linarith

/-- choice on a nonempty list picks an element of it. -/
theorem choice_mem {l : List String} (h : l ≠ []) (s : Nat) : choice l s ∈ l := by
  cases l with
  | nil => exact absurd rfl h
  | cons a rest => exact List.get_mem _ _ _

/-- The records of l falling in the minute window starting at w. -/
def windowRecords (l : List TrafficRecord) (w : ℤ) : List TrafficRecord :=
  l.filter fun r => decide (windowStart r.timestamp = w)

/-- Total packets of the minute window starting at w. -/
def windowTotal (l : List TrafficRecord) (w : ℤ) : Nat :=
  ((windowRecords l w).map fun r => r.packet_count).sum

/-- Every DDoS finding carries its window key in its timestamp field. -/
theorem ddosCheck_timestamp (p : ℤ × List TrafficRecord) (c : DdosAttack)
    (h : ddosCheck p = some c) : c.timestamp = p.1 := by
  unfold ddosCheck at h
  split at h
  · exact absurd h (by simp)
  · simp only [] at h
    split at h
    · exact (Option.some.inj h) ▸ rfl
    · exact absurd h (by simp)

/-- Every spoofing finding carries its source key in its source field. -/
theorem spoofCheck_source (p : String × SourceStats) (c : SpoofingAttack)
    (h : spoofCheck p = some c) : c.source = p.1 := by
  unfold spoofCheck at h
  split at h
  · split at h
    · exact (Option.some.inj h) ▸ rfl
    · exact absurd h (by simp)
  · exact absurd h (by simp)

/-- The bucket detect_ddos_attack examined for a finding is the window's
record sublist of the input. -/
theorem ddos_mem_elim {l : List TrafficRecord} {a : DdosAttack}
    (ha : a ∈ detect_ddos_attack l) :
    ∃ w, windowRecords l w ≠ [] ∧ ddosCheck (w, windowRecords l w) = some a := by
  obtain ⟨p, hp, hg1⟩ := List.mem_filterMap.mp ha
  obtain ⟨w, F⟩ := p
  have hl : alookup w (groupFold (fun r => windowStart r.timestamp) l) = some F :=
    alookup_of_mem_nodup (nodup_keys_groupFold _ _) hp
  rw [alookup_groupFold] at hl
  by_cases hf : (l.filter fun x => decide (windowStart x.timestamp = w)) = []
  · rw [if_pos (by simpa using hf)] at hl
    cases hl
  · rw [if_neg (by simpa using hf)] at hl
    have hFF : List.filter (fun x => decide (windowStart x.timestamp = w)) l = F :=
      Option.some.inj hl
    subst hFF
    exact ⟨w, hf, hg1⟩

/-- The aggregate detect_spoofing_attack examined for a finding is the
source's aggregate over the input. -/
theorem spoof_mem_elim {l : List TrafficRecord} {a : SpoofingAttack}
    (ha : a ∈ detect_spoofing_attack l) :
    ∃ s, sourceRecords l s ≠ [] ∧
      spoofCheck (s, { packet_count := sourcePackets l s
                       data_volume := sourceVolume l s
                       first_seen := firstSeenTs l s
                       last_seen := lastSeenTs l s }) = some a := by
  obtain ⟨p, hp, hg1⟩ := List.mem_filterMap.mp ha
  obtain ⟨s, st⟩ := p
  have hl : alookup s (sourceAnalysis l) = some st :=
    alookup_of_mem_nodup (nodup_keys_sourceAnalysis _) hp
  rw [alookup_sourceAnalysis] at hl
  by_cases hf : sourceRecords l s = []
  · rw [if_pos hf] at hl
    cases hl
  · rw [if_neg hf] at hl
    have hF := Option.some.inj hl
    rw [← hF] at hg1
    exact ⟨s, hf, hg1⟩

/-- ddosCheck fires exactly on a nonempty window whose total exceeds 1000. -/
theorem ddosCheck_isSome (w : ℤ) (F : List TrafficRecord) :
    (ddosCheck (w, F)).isSome =
      (!F.isEmpty && decide (1000 < (F.map (fun r => r.packet_count)).sum)) := by
  unfold ddosCheck
  by_cases h1 : F.isEmpty
  · simp [h1]
  · by_cases h2 : 1000 < (F.map (fun r => r.packet_count)).sum
    · simp [h1, h2]
    · simp [h1, h2]

/-- What a DDoS finding records about its window. -/
theorem ddosCheck_some_elim {p : ℤ × List TrafficRecord} {a : DdosAttack}
    (h : ddosCheck p = some a) :
    1000 < (p.2.map (fun r => r.packet_count)).sum ∧
    a.timestamp = p.1 ∧
    a.total_packets = (p.2.map (fun r => r.packet_count)).sum ∧
    a.confidence = min ((((p.2.map (fun r => r.packet_count)).sum : ℕ) : ℚ) / 1000) 1 := by
  unfold ddosCheck at h
  split at h
  · exact absurd h (by simp)
  · simp only [] at h
    split at h
    case isTrue h2 =>
      have ha := Option.some.inj h
      subst ha
      exact ⟨h2, rfl, rfl, rfl⟩
    case isFalse h2 => exact absurd h (by simp)

/-- spoofCheck fires exactly on a positive span and a rate above 50. -/
theorem spoofCheck_isSome (s : String) (st : SourceStats) :
    (spoofCheck (s, st)).isSome =
      (decide (0 < spoofSpan st) && decide (50 < spoofRate st)) := by
  unfold spoofCheck
  by_cases h1 : 0 < spoofSpan st
  · by_cases h2 : 50 < spoofRate st
    · simp [h1, h2]
    · simp [h1, h2]
  · simp [h1]

/-- What a spoofing finding records about its source aggregate. -/
theorem spoofCheck_some_elim {p : String × SourceStats} {a : SpoofingAttack}
    (h : spoofCheck p = some a) :
    0 < spoofSpan p.2 ∧ 50 < spoofRate p.2 ∧ a.source = p.1 ∧
    a.timestamp = p.2.last_seen ∧ a.packet_rate = spoofRate p.2 ∧
    a.total_packets = p.2.packet_count ∧ a.confidence = min (spoofRate p.2 / 100) 1 := by
  unfold spoofCheck at h
  split at h
  case isTrue h1 =>
    split at h
    case isTrue h2 =>
      have ha := Option.some.inj h
      subst ha
      exact ⟨h1, h2, rfl, rfl, rfl, rfl, rfl⟩
    case isFalse h2 => exact absurd h (by simp)
  case isFalse h1 => exact absurd h (by simp)

/-- Claim C2: flood (DDoS) detection groups records into fixed 60-second
windows; every window yields exactly one finding precisely when the sum of
its packet counts exceeds 1000, and every finding's confidence equals
min(total/1000, 1) with total_packets the window total (in particular a
window totalling 1500 yields one finding of confidence min(1500/1000,1)=1). -/
theorem detect_ddos_attack_spec (l : List TrafficRecord) (w : ℤ) :
    (detect_ddos_attack l).countP (fun a => decide (DdosAttack.timestamp a = w)) =
      (if 1000 < windowTotal l w then 1 else 0)
    ∧ (detect_ddos_attack l).all (fun a =>
        decide (a.confidence = min ((windowTotal l a.timestamp : ℚ) / 1000) 1
          ∧ a.total_packets = windowTotal l a.timestamp)) = true := by
  constructor
  · rw [detect_ddos_attack,
      countP_filterMap_key ddosCheck DdosAttack.timestamp ddosCheck_timestamp _
        (nodup_keys_groupFold _ _) w,
      alookup_groupFold]
    by_cases hf : (l.filter fun x => decide (windowStart x.timestamp = w)) = []
    · rw [if_pos (by simpa using hf)]
      have h0 : windowTotal l w = 0 := by
        simp [windowTotal, windowRecords, hf]
      simp [h0]
    · rw [if_neg (by simpa using hf)]
      have htot : ((l.filter fun x => decide (windowStart x.timestamp = w)).map
          (fun r => r.packet_count)).sum = windowTotal l w := rfl
      have hne : (l.filter fun x => decide (windowStart x.timestamp = w)).isEmpty = false := by
        simpa using hf
      simp only [ddosCheck_isSome, htot, hne]
      by_cases ht : 1000 < windowTotal l w
      · simp [ht]
      · simp [ht]
  · rw [List.all_eq_true]
    intro a ha
    obtain ⟨w1, hne, hchk⟩ := ddos_mem_elim ha
    obtain ⟨h2, hts, htp, hconf⟩ := ddosCheck_some_elim hchk
    have htot : ((windowRecords l w1).map (fun r => r.packet_count)).sum = windowTotal l w1 :=
      rfl
    rw [decide_eq_true_eq, hts]
    exact ⟨by rw [hconf, htot], by rw [htp]; exact htot⟩

/-- Claim C9: every flood finding has confidence exactly 1, because a
finding is only emitted when the window total strictly exceeds 1000, so
min(total/1000, 1) always saturates. -/
theorem detect_ddos_attack_confidence_one (l : List TrafficRecord) :
    (detect_ddos_attack l).all (fun a => decide (a.confidence = 1)) = true := by
  rw [List.all_eq_true]
  intro a ha
  obtain ⟨w1, hne, hchk⟩ := ddos_mem_elim ha
  obtain ⟨h2, hts, htp, hconf⟩ := ddosCheck_some_elim hchk
  rw [decide_eq_true_eq, hconf]
  have h1 : (1 : ℚ) ≤ (((windowRecords l w1).map (fun r => r.packet_count)).sum : ℕ) / 1000 := by
    rw [le_div_iff₀ (by norm_num : (0:ℚ) < 1000)]
    have : (1000 : ℚ) < (((windowRecords l w1).map (fun r => r.packet_count)).sum : ℕ) := by
      exact_mod_cast h2
    linarith
  exact min_eq_right h1

/-- Claim C3: spoofing detection aggregates total packets per distinct
source, derives a rate over the seconds between that source's first and
last sighting, and emits exactly one finding per source whose rate exceeds
50 packets/second, with confidence min(rate/100, 1), the rate and total in
the metrics, and the last sighting as timestamp (in particular a single
source with 200 packets over 2 seconds rates 100 pps and yields one finding
of confidence min(100/100, 1) = 1). -/
theorem detect_spoofing_attack_spec (l : List TrafficRecord) (s : String) :
    (detect_spoofing_attack l).countP (fun a => decide (SpoofingAttack.source a = s)) =
      (if spoofFlagged l s then 1 else 0)
    ∧ (detect_spoofing_attack l).all (fun a =>
        decide (a.confidence = min (sourceRate l a.source / 100) 1
          ∧ a.packet_rate = sourceRate l a.source
          ∧ a.total_packets = sourcePackets l a.source
          ∧ a.timestamp = lastSeenTs l a.source)) = true := by
  constructor
  · rw [detect_spoofing_attack,
      countP_filterMap_key spoofCheck SpoofingAttack.source spoofCheck_source _
        (nodup_keys_sourceAnalysis _) s,
      alookup_sourceAnalysis]
    by_cases hf : sourceRecords l s = []
    · rw [if_pos hf]
      simp [spoofFlagged, hf]
    · rw [if_neg hf]
      simp only [spoofCheck_isSome]
      have h1 : spoofSpan { packet_count := sourcePackets l s
                            data_volume := sourceVolume l s
                            first_seen := firstSeenTs l s
                            last_seen := lastSeenTs l s } = sourceSpan l s := rfl
      have h2 : spoofRate { packet_count := sourcePackets l s
                            data_volume := sourceVolume l s
                            first_seen := firstSeenTs l s
                            last_seen := lastSeenTs l s } = sourceRate l s := rfl
      rw [h1, h2]
      have hb : (sourceRecords l s).isEmpty = false := by
        rw [List.isEmpty_eq_false]
        exact hf
      have h3 : spoofFlagged l s =
          (decide (0 < sourceSpan l s) && decide (50 < sourceRate l s)) := by
        simp [spoofFlagged, hb]
      rw [h3]
  · rw [List.all_eq_true]
    intro a ha
    obtain ⟨s1, hne, hchk⟩ := spoof_mem_elim ha
    obtain ⟨hsp, hrt, hsrc, hts, hpr, htp, hconf⟩ := spoofCheck_some_elim hchk
    rw [decide_eq_true_eq, hsrc]
    refine ⟨?_, ?_, ?_, ?_⟩
    · rw [hconf]; rfl
    · rw [hpr]; rfl
    · rw [htp]
    · rw [hts]

/-- Claim C10: the spoofing detector only divides by a time span after
checking it is strictly positive, so no finding ever comes from a source
whose first and last sightings share a timestamp; in particular a source
appearing in exactly one record is never flagged, however large its packet
count. -/
theorem detect_spoofing_attack_positive_span (l : List TrafficRecord) :
    (detect_spoofing_attack l).all (fun a => decide (0 < sourceSpan l a.source)) = true
    ∧ (detect_spoofing_attack l).all
        (fun a => decide (firstSeenTs l a.source ≠ lastSeenTs l a.source)) = true
    ∧ (detect_spoofing_attack l).all
        (fun a => decide ((sourceRecords l a.source).length ≠ 1)) = true := by
  have key : ∀ a ∈ detect_spoofing_attack l, 0 < sourceSpan l a.source := by
    intro a ha
    obtain ⟨s1, hne, hchk⟩ := spoof_mem_elim ha
    obtain ⟨hsp, hrt, hsrc, _⟩ := spoofCheck_some_elim hchk
    rw [hsrc]
    exact hsp
  refine ⟨?_, ?_, ?_⟩
  · rw [List.all_eq_true]
    intro a ha
    exact decide_eq_true (key a ha)
  · rw [List.all_eq_true]
    intro a ha
    rw [decide_eq_true_eq]
    have hk := key a ha
    unfold sourceSpan at hk
    omega
  · rw [List.all_eq_true]
    intro a ha
    rw [decide_eq_true_eq]
    intro hlen
    obtain ⟨x, hx⟩ := List.length_eq_one.mp hlen
    have hk := key a ha
    simp [sourceSpan, firstSeenTs, lastSeenTs, hx] at hk

/-- Claim C4: comprehensive detection on an empty input returns all four
finding lists empty with total_attacks 0 and traffic_records_analyzed 0,
and every individual detector degrades to an empty finding list rather
than raising when its input is empty or, for MITM interception, has fewer
than 10 qualifying records. -/
theorem comprehensive_attack_detection_empty
    (scaler : List (List ℚ) → List (List ℚ)) (fit_predict : List (List ℚ) → List ℤ)
    (score_samples : List ℚ → ℚ) (l : List TrafficRecord) (hl : l.length < 10) :
    detect_mitm_attack scaler fit_predict score_samples l = []
    ∧ comprehensive_attack_detection scaler fit_predict score_samples [] =
        { ddos_attacks := [], jamming_attacks := [], mitm_attacks := [],
          spoofing_attacks := [], total_attacks := 0, traffic_records_analyzed := 0 }
    ∧ detect_ddos_attack [] = []
    ∧ detect_jamming_attack [] = []
    ∧ detect_mitm_attack scaler fit_predict score_samples [] = []
    ∧ detect_spoofing_attack [] = [] := by
  have hmitm : detect_mitm_attack scaler fit_predict score_samples l = [] := by
    unfold detect_mitm_attack
    rw [if_pos (by simpa using hl)]
  have hmitm0 : detect_mitm_attack scaler fit_predict score_samples [] = [] := by
    unfold detect_mitm_attack
    rw [if_pos (by norm_num)]
  have hcomp : comprehensive_attack_detection scaler fit_predict score_samples [] =
      { ddos_attacks := [], jamming_attacks := [], mitm_attacks := [],
        spoofing_attacks := [], total_attacks := 0, traffic_records_analyzed := 0 } := by
    unfold comprehensive_attack_detection
    rw [hmitm0]
    rfl
  exact ⟨hmitm, hcomp, rfl, rfl, hmitm0, rfl⟩

/-- Witness for C4 at the identity scaler, an always-empty forest, the zero
score and the empty input. -/
theorem comprehensive_attack_detection_empty_witness :
    ([] : List TrafficRecord).length < 10
    ∧ (detect_mitm_attack id (fun _ => []) (fun _ => 0) [] = []
       ∧ comprehensive_attack_detection id (fun _ => []) (fun _ => 0) [] =
           { ddos_attacks := [], jamming_attacks := [], mitm_attacks := [],
             spoofing_attacks := [], total_attacks := 0, traffic_records_analyzed := 0 }
       ∧ detect_ddos_attack [] = []
       ∧ detect_jamming_attack [] = []
       ∧ detect_mitm_attack id (fun _ => []) (fun _ => 0) [] = []
       ∧ detect_spoofing_attack [] = []) :=
  ⟨by decide,
   comprehensive_attack_detection_empty id (fun _ => []) (fun _ => 0) [] (by decide)⟩

/-- Claim C5: the security report's attack-traffic percentage equals
(attack records / total records) * 100 on a nonempty traffic collection and
exactly 0 on an empty one, and its recent-events slice is a suffix of the
whole event log in original append order, of length min 10 (event count). -/
theorem generate_security_report_spec (s : SimState) :
    (generate_security_report s).attack_traffic_percentage =
      (if s.traffic_data = [] then 0
       else ((s.traffic_data.filter fun t => t.is_attack).length : ℚ) * 100
         / (s.traffic_data.length : ℚ))
    ∧ List.IsSuffix (generate_security_report s).recent_events
        (s.security_events.map toRecent)
    ∧ (generate_security_report s).recent_events.length =
        min 10 s.security_events.length := by
  refine ⟨?_, ?_, ?_⟩
  · by_cases he : s.traffic_data = []
    · simp [generate_security_report, he]
    · have hpos : 0 < s.traffic_data.length := List.length_pos.mpr he
      simp only [generate_security_report, if_pos hpos, if_neg he]
      rw [div_mul_eq_mul_div]
  · have hmap : (generate_security_report s).recent_events =
        (s.security_events.map toRecent).drop (s.security_events.length - 10) := by
      simp [generate_security_report, List.map_drop]
    rw [hmap]
    exact List.drop_suffix _ _
  · simp [generate_security_report]
    omega

/-- A benign record keeps the emitting node as its source. -/
theorem mkNormalRecord_source (keys : List String) (src : String) (g : Rng) :
    (mkNormalRecord keys src g).1.source = src := rfl

/-- The range predicate of the benign traffic contract: packet count in
[10, 100], byte volume in [100, 1000], latency in [1, 50], signal strength
in [0.7, 1], attack flag false, destination among the given identifiers. -/
def normalRecordOk (keys : List String) (r : TrafficRecord) : Bool :=
  decide (10 ≤ r.packet_count ∧ r.packet_count ≤ 100 ∧ 100 ≤ r.data_volume ∧
    r.data_volume ≤ 1000 ∧ 1 ≤ r.latency ∧ r.latency ≤ 50 ∧
    7/10 ≤ r.signal_strength.getD 0 ∧ r.signal_strength.getD 0 ≤ 1 ∧
    r.is_attack = false ∧ r.destination ∈ keys)

/-- A benign record drawn over a nonempty identifier list satisfies the
range contract. -/
theorem mkNormalRecord_ok (keys : List String) (src : String) (g : Rng) (hk : keys ≠ []) :
    normalRecordOk keys (mkNormalRecord keys src g).1 = true := by
  rw [normalRecordOk, decide_eq_true_eq]
  refine ⟨(randint_mem (by norm_num) _).1, (randint_mem (by norm_num) _).2,
    (randint_mem (by norm_num) _).1, (randint_mem (by norm_num) _).2,
    (runiform_mem (by norm_num) _).1, (runiform_mem (by norm_num) _).2,
    (runiform_mem (by norm_num) _).1, (runiform_mem (by norm_num) _).2,
    rfl, choice_mem hk _⟩

/-- The registry loop with no nodes generates nothing. -/
theorem gen_traffic_nil (keys : List String) (d : Nat) (g : Rng) :
    (gen_traffic keys [] d g).1 = [] := by
  induction d generalizing g with
  | zero => rfl
  | succ d ih => simp [gen_traffic, gen_second, ih]

/-- Every record of one generated second satisfies the range contract. -/
theorem gen_second_all (keys : List String) (nodes : List (String × NetworkNode)) (g : Rng)
    (hk : keys ≠ []) :
    ∀ r ∈ (gen_second keys nodes g).1, normalRecordOk keys r = true := by
  induction nodes generalizing g with
  | nil => intro r hr; simp [gen_second] at hr
  | cons p rest ih =>
    intro r hr
    by_cases hUE : p.2.node_type = "User Equipment"
    · simp only [gen_second, if_pos hUE] at hr
      rcases List.mem_cons.mp hr with h | h
      · rw [h]; exact mkNormalRecord_ok keys p.1 g hk
      · exact ih _ r h
    · simp only [gen_second, if_neg hUE] at hr
      exact ih _ r hr

/-- Every generated record satisfies the range contract. -/
theorem gen_traffic_all (keys : List String) (nodes : List (String × NetworkNode)) (d : Nat)
    (g : Rng) (hk : keys ≠ []) :
    ∀ r ∈ (gen_traffic keys nodes d g).1, normalRecordOk keys r = true := by
  induction d generalizing g with
  | zero => intro r hr; simp [gen_traffic] at hr
  | succ d ih =>
    intro r hr
    simp only [gen_traffic] at hr
    rcases List.mem_append.mp hr with h | h
    · exact gen_second_all keys nodes g hk r h
    · exact ih _ r h

/-- One generated second has one record per User Equipment entry with a
given source identifier. -/
theorem gen_second_countP (keys : List String) (nodes : List (String × NetworkNode))
    (g : Rng) (id : String) :
    ((gen_second keys nodes g).1).countP (fun r => decide (r.source = id)) =
      nodes.countP (fun p => decide (p.1 = id) && decide (p.2.node_type = "User Equipment")) := by
  induction nodes generalizing g with
  | nil => simp [gen_second]
  | cons p rest ih =>
    by_cases hUE : p.2.node_type = "User Equipment"
    · simp only [gen_second, if_pos hUE, List.countP_cons]
      rw [ih]
      simp [mkNormalRecord_source, hUE]
    · simp only [gen_second, if_neg hUE]
      rw [ih, List.countP_cons]
      simp [hUE]

/-- d generated seconds have d records per User Equipment entry with a
given source identifier. -/
theorem gen_traffic_countP (keys : List String) (nodes : List (String × NetworkNode))
    (d : Nat) (g : Rng) (id : String) :
    ((gen_traffic keys nodes d g).1).countP (fun r => decide (r.source = id)) =
      d * nodes.countP
        (fun p => decide (p.1 = id) && decide (p.2.node_type = "User Equipment")) := by
  induction d generalizing g with
  | zero => simp [gen_traffic]
  | succ d ih =>
    simp only [gen_traffic, List.countP_append]
    rw [gen_second_countP, ih]
    ring

/-- In a registry with unique keys, a registered User Equipment identifier
matches exactly one entry. -/
theorem countP_keys_one {nodes : List (String × NetworkNode)} {id : String} {n : NetworkNode}
    (hnd : (nodes.map Prod.fst).Nodup) (hm : (id, n) ∈ nodes)
    (hUE : n.node_type = "User Equipment") :
    nodes.countP
      (fun p => decide (p.1 = id) && decide (p.2.node_type = "User Equipment")) = 1 := by
  induction nodes with
  | nil => cases hm
  | cons q rest ih =>
    rw [List.map_cons, List.nodup_cons] at hnd
    rcases List.mem_cons.mp hm with heq | hmem
    · cases heq
      rw [List.countP_cons]
      have hz : rest.countP
          (fun p => decide (p.1 = id) && decide (p.2.node_type = "User Equipment")) = 0 := by
        rw [List.countP_eq_zero]
        intro p hp
        have hp1 : p.1 ≠ id := by
          intro hh
          exact hnd.1 (hh ▸ List.mem_map.mpr ⟨p, hp, rfl⟩)
        simp [hp1]
      rw [hz]
      simp [hUE]
    · have hq : q.1 ≠ id := by
        intro hh
        exact hnd.1 (hh ▸ List.mem_map.mpr ⟨(id, n), hmem, rfl⟩)
      rw [List.countP_cons]
      simp [hq, ih hnd.2 hmem]

/-- The new records are exactly what the generation loop produced. -/
theorem normal_new_records_eq (d : Nat) (s : SimState) (g : Rng) :
    normal_new_records d s g = (gen_traffic (s.nodes.map Prod.fst) s.nodes d g).1 := by
  unfold normal_new_records generate_normal_traffic
  simp [List.drop_left]

/-- Claim C6: the traffic generator appends exactly d benign records per
User Equipment node, and every appended record has packet count in
[10, 100], byte volume in [100, 1000], latency in [1, 50], signal strength
in [0.7, 1], attack flag false, and a destination among the registered node
identifiers (possibly the source itself). -/
theorem generate_normal_traffic_spec (s : SimState) (d : Nat) (g : Rng) :
    ((normal_new_records d s g).all fun r =>
        normalRecordOk (s.nodes.map Prod.fst) r) = true
    ∧ ∀ id n, (s.nodes.map Prod.fst).Nodup → (id, n) ∈ s.nodes →
        n.node_type = "User Equipment" →
        (normal_new_records d s g).countP (fun r => decide (r.source = id)) = d := by
  constructor
  · rw [List.all_eq_true, normal_new_records_eq]
    by_cases hn : s.nodes = []
    · rw [hn, gen_traffic_nil]
      intro r hr
      cases hr
    · have hk : s.nodes.map Prod.fst ≠ [] := by simpa using hn
      exact gen_traffic_all _ _ d g hk
  · intro id n hnd hm hUE
    rw [normal_new_records_eq, gen_traffic_countP, countP_keys_one hnd hm hUE, Nat.mul_one]

/-- The registered UE-001 node. -/
def ue1 : NetworkNode :=
  { node_id := "UE-001", node_type := "User Equipment",
    ip_address := "192.168.1.1", location := (2, 0) }

/-- Witness for C6 on the initialized registry, two seconds of traffic and
the all-zero draw stream. -/
theorem generate_normal_traffic_spec_witness :
    ((normal_new_records 2 sim0 rng0).all fun r =>
        normalRecordOk (sim0.nodes.map Prod.fst) r) = true
    ∧ ((sim0.nodes.map Prod.fst).Nodup ∧ ("UE-001", ue1) ∈ sim0.nodes
       ∧ ue1.node_type = "User Equipment"
       ∧ (normal_new_records 2 sim0 rng0).countP
           (fun r => decide (r.source = "UE-001")) = 2) :=
  ⟨(generate_normal_traffic_spec sim0 2 rng0).1,
   by decide, by decide, rfl,
   (generate_normal_traffic_spec sim0 2 rng0).2 "UE-001" ue1 (by decide) (by decide) rfl⟩

/-- The range predicate of the flood injector contract: packet count in
[1000, 5000], attack flag true, attack kind flood, latency in [100, 500],
signal strength in [0.3, 0.6]. -/
def ddosRecordOk (r : TrafficRecord) : Bool :=
  decide (1000 ≤ r.packet_count ∧ r.packet_count ≤ 5000 ∧ r.is_attack = true ∧
    r.attack_type = some "DDoS" ∧ 100 ≤ r.latency ∧ r.latency ≤ 500 ∧
    3/10 ≤ r.signal_strength.getD 0 ∧ r.signal_strength.getD 0 ≤ 6/10)

/-- The flood loop emits one record per second. -/
theorem ddosLoop_length (target : String) (d : Nat) (g : Rng) :
    ((ddosLoop target d g).1).length = d := by
  induction d generalizing g with
  | zero => rfl
  | succ d ih => simp [ddosLoop, ih]

/-- Every flood record satisfies the range contract. -/
theorem ddosLoop_all (target : String) (d : Nat) (g : Rng) :
    ((ddosLoop target d g).1).all ddosRecordOk = true := by
  induction d generalizing g with
  | zero => rfl
  | succ d ih =>
    simp only [ddosLoop, List.all_cons, Bool.and_eq_true]
    refine ⟨?_, ih _⟩
    rw [ddosRecordOk, decide_eq_true_eq]
    exact ⟨(randint_mem (by norm_num) _).1, (randint_mem (by norm_num) _).2, rfl, rfl,
      (runiform_mem (by norm_num) _).1, (runiform_mem (by norm_num) _).2,
      (runiform_mem (by norm_num) _).1, (runiform_mem (by norm_num) _).2⟩

/-- The attack_packets counter of the flood loop is the sum of the emitted
records' packet counts. -/
theorem ddosLoop_total (target : String) (d : Nat) (g : Rng) :
    (ddosLoop target d g).2.1 = (((ddosLoop target d g).1).map fun r => r.packet_count).sum := by
  induction d generalizing g with
  | zero => rfl
  | succ d ih =>
    simp only [ddosLoop, List.map_cons, List.sum_cons]
    rw [ih]

/-- Claim C7: the flood injector appends exactly d records, each with
packet count in [1000, 5000], attack flag true, attack kind flood, latency
in [100, 500] and signal strength in [0.3, 0.6], plus exactly one HIGH
severity SecurityEvent whose description carries the total packets sent;
nothing else in the state changes. -/
theorem simulate_ddos_attack_spec (s : SimState) (target : String) (d : Nat) (g : Rng) :
    (ddos_new_records target d s g).length = d
    ∧ (ddos_new_records target d s g).all ddosRecordOk = true
    ∧ (∃ e, ((simulate_ddos_attack target d s g).1).security_events
          = s.security_events ++ [e]
        ∧ e.severity = Severity.high ∧ e.threat_type = ThreatType.ddos
        ∧ e.description = "DDoS attack with "
            ++ toString (((ddos_new_records target d s g).map fun r => r.packet_count).sum)
            ++ " packets over " ++ toString d ++ " seconds")
    ∧ ((simulate_ddos_attack target d s g).1).nodes = s.nodes
    ∧ ((simulate_ddos_attack target d s g).1).traffic_data.take s.traffic_data.length
        = s.traffic_data := by
  have hnew : ddos_new_records target d s g = (ddosLoop target d (rnow g).2).1 := by
    unfold ddos_new_records simulate_ddos_attack
    simp [List.drop_left]
  refine ⟨?_, ?_, ?_, rfl, ?_⟩
  · rw [hnew]; exact ddosLoop_length target d _
  · rw [hnew]; exact ddosLoop_all target d _
  · refine ⟨_, rfl, rfl, rfl, ?_⟩
    rw [hnew, ← ddosLoop_total]
  · unfold simulate_ddos_attack
    simp [List.take_left]

/-- Claim C8: the jamming injector appends no traffic records, appends
exactly one MEDIUM severity SecurityEvent naming the affected-node count,
and the only state it mutates is the status field of the nodes within
radius of the target area, which becomes degraded; every other field of
every node, and every node outside the radius, is unchanged. -/
theorem simulate_jamming_attack_spec (s : SimState) (area : ℚ × ℚ) (radius : ℚ) (g : Rng) :
    ((simulate_jamming_attack area radius s g).1).traffic_data = s.traffic_data
    ∧ (∃ e, ((simulate_jamming_attack area radius s g).1).security_events
          = s.security_events ++ [e]
        ∧ e.severity = Severity.medium ∧ e.threat_type = ThreatType.jamming
        ∧ e.description = "Jamming attack affecting "
            ++ toString (s.nodes.countP fun p => withinRadius p.2.location area radius)
            ++ " nodes")
    ∧ List.Forall₂
        (fun p q => q.1 = p.1 ∧ q.2.node_id = p.2.node_id
          ∧ q.2.node_type = p.2.node_type ∧ q.2.ip_address = p.2.ip_address
          ∧ q.2.location = p.2.location ∧ q.2.security_level = p.2.security_level
          ∧ q.2.status = (if withinRadius p.2.location area radius then "degraded"
              else p.2.status))
        s.nodes ((simulate_jamming_attack area radius s g).1).nodes := by
  refine ⟨rfl, ⟨_, rfl, rfl, rfl, rfl⟩, ?_⟩
  show List.Forall₂ _ s.nodes
    (s.nodes.map fun p =>
      if withinRadius p.2.location area radius then (p.1, { p.2 with status := "degraded" })
      else p)
  induction s.nodes with
  | nil => constructor
  | cons p rest ih =>
    simp only [List.map_cons]
    constructor
    · by_cases hw : withinRadius p.2.location area radius
      · refine ⟨?_, ?_, ?_, ?_, ?_, ?_, ?_⟩ <;> simp [hw]
      · refine ⟨?_, ?_, ?_, ?_, ?_, ?_, ?_⟩ <;> simp [hw]
    · exact ih

/-- Counterexample to claim C1 as stated: running the jamming injector with
target area (1,1) and radius 0.5 on the freshly initialized registry does
not yield the status table the claim asserts (exactly "gNB-001" degraded,
all other statuses unchanged): gNB-001 sits at (1,0), at distance 1 > 0.5
from (1,1), so its status stays active. -/
theorem jamming_area11_not_gNB001 :
    ¬ (((simulate_jamming_attack ((1 : ℚ), (1 : ℚ)) (1/2) sim0 rng0).1).nodes.map
          (fun p => (p.1, p.2.status))
        = init_network_nodes.map
          (fun p => (p.1, if p.1 = "gNB-001" then "degraded" else p.2.status))) := by
  simp only [simulate_jamming_attack, sim0, init_network_nodes, List.map_cons, List.map_nil]
  norm_num [withinRadius]
  intro _ _ _ _ _ h
  exact absurd h (by decide)

/-- Claim C1 amended: in the hard-coded registry the only node at distance
at most 0.5 from (1,1) is gNB-002, which sits exactly at (1,1); the run
sets exactly gNB-002's status to degraded and leaves every other node
entry entirely unchanged. -/
theorem jamming_area11_gNB002 :
    ((simulate_jamming_attack ((1 : ℚ), (1 : ℚ)) (1/2) sim0 rng0).1).nodes
      = init_network_nodes.map
        (fun p =>
          if p.1 = "gNB-002" then (p.1, { p.2 with status := "degraded" }) else p) := by
  simp only [simulate_jamming_attack, sim0, init_network_nodes, List.map_cons, List.map_nil]
  norm_num [withinRadius]
  decide
